import Mathlib

/-!
# SilentDragonPaper: the application entry point

A shallow embedding of `ui/src/main.cpp`, the one source file of the
repository.  `main` is a straight-line sequence of Qt calls with a single
preprocessor conditional (`#ifdef Q_OS_LINUX`).  The Qt process state that
these calls read and write is made explicit (`Qt`), every call appends itself
to a trace, and `main` threads that state through its statements in source
order.

What is outside the source is a parameter:
* `Build.Q_OS_LINUX` and `Build.APP_VERSION` (the latter comes from
  `version.h`) are fixed at compile time;
* the value `QApplication::exec()` hands back is chosen by the event loop,
  given here as a function of the state in which `exec` is entered;
* the constructor of `MainWindow` lives in `mainwindow.cpp`; the title it
  leaves on the fresh window is a parameter.

Every Qt call is taken to return to its caller; `main` has no branch that
depends on a returned value other than the final `return a.exec()`.
-/

namespace SilentDragonPaper

/-! ## Data -/

/-- The two `Qt::ApplicationAttribute` values that `main` switches on. -/
inductive ApplicationAttribute
  | AA_UseHighDpiPixmaps
  | AA_EnableHighDpiScaling
  deriving DecidableEq

/-- The `QFont::Weight` values. -/
inductive FontWeight
  | Thin | ExtraLight | Light | Normal | Medium | DemiBold | Bold | ExtraBold | Black
  deriving DecidableEq

/-- The arguments of `QFont(family, pointSize, weight, italic)`. -/
structure QFont where
  family : String
  pointSize : Int
  weight : FontWeight
  italic : Bool
  deriving DecidableEq

/-- The work of the wallet core, none of which belongs to the application shell. -/
inductive CoreOperation
  | keyGeneration
  | encoding
  | encryption
  deriving DecidableEq

/-- One observable call.  The constructors are the Qt calls that occur in
`main.cpp`, plus `core` for a call into the wallet core. -/
inductive QtCall
  | setAttribute (flag : ApplicationAttribute)
  | setOrganizationDomain (orgDomain : String)
  | setOrganizationName (orgName : String)
  | addApplicationFont (fileName : String)
  | qAppSetFont (font : QFont)
  | newQApplication (argc : Int) (argv : List String)
  | newMainWindow
  | setWindowTitle (window : Nat) (title : String)
  | showWindow (window : Nat)
  | exec (returned : Int)
  | core (operation : CoreOperation)
  deriving DecidableEq

/-- Whether a call is key generation, encoding or encryption. -/
def QtCall.isCore : QtCall → Bool
  | .core _ => true
  | _ => false

/-- A `MainWindow` object: its title and whether it is shown. -/
structure MainWindow where
  windowTitle : String
  visible : Bool
  deriving DecidableEq

/-- The `QApplication` object: the arguments it was constructed from. -/
structure QApplication where
  argc : Int
  argv : List String
  deriving DecidableEq

/-- The part of the process state that `main` touches.

* `trace`: the calls made so far, oldest first;
* `qApp`: what the `qApp` macro (`QCoreApplication::instance()`) evaluates
  to, `none` being the null pointer;
* `usedWithoutApplication`: the calls that went through `qApp` or the font
  database while `qApp` was null;
* `shown`: for every `show()`, the window and the title it had at that moment. -/
structure Qt where
  trace : List QtCall
  attributes : List ApplicationAttribute
  organizationDomain : String
  organizationName : String
  qApp : Option QApplication
  applicationFonts : List String
  font : Option QFont
  windows : List MainWindow
  shown : List (Nat × String)
  usedWithoutApplication : List QtCall

/-- The state in which the operating system enters `main`. -/
def Qt.start : Qt :=
  { trace := [], attributes := [], organizationDomain := "", organizationName := "",
    qApp := none, applicationFonts := [], font := none, windows := [], shown := [],
    usedWithoutApplication := [] }

/-- Compile-time configuration: the platform switch and the version string. -/
structure Build where
  Q_OS_LINUX : Bool
  APP_VERSION : String

/-- What the surroundings of `main` decide: the value the event loop makes
`exec` return, and the title a freshly constructed `MainWindow` carries. -/
structure Environment where
  eventLoop : Qt → Int
  constructedTitle : String

/-! ## The Qt calls of `main.cpp` -/

/-- Appends a call to the trace. -/
def Qt.log (s : Qt) (c : QtCall) : Qt :=
  { s with trace := s.trace ++ [c] }

/-- Records a call that needs the application object; it is noted when `qApp` is null. -/
def Qt.useApplication (s : Qt) (c : QtCall) : Qt :=
  match s.qApp with
  | some _ => s.log c
  | none => { s.log c with usedWithoutApplication := s.usedWithoutApplication ++ [c] }

/-- The static `QCoreApplication::setAttribute(flag)`. -/
def QCoreApplication.setAttribute (flag : ApplicationAttribute) (s : Qt) : Qt :=
  { s.log (.setAttribute flag) with attributes := s.attributes ++ [flag] }

/-- The static `QCoreApplication::setOrganizationDomain(orgDomain)`. -/
def QCoreApplication.setOrganizationDomain (orgDomain : String) (s : Qt) : Qt :=
  { s.log (.setOrganizationDomain orgDomain) with organizationDomain := orgDomain }

/-- The static `QCoreApplication::setOrganizationName(orgName)`. -/
def QCoreApplication.setOrganizationName (orgName : String) (s : Qt) : Qt :=
  { s.log (.setOrganizationName orgName) with organizationName := orgName }

/-- The call `QFontDatabase::addApplicationFont(fileName)`; the font database
belongs to the application object. -/
def QFontDatabase.addApplicationFont (fileName : String) (s : Qt) : Qt :=
  { s.useApplication (.addApplicationFont fileName) with
    applicationFonts := s.applicationFonts ++ [fileName] }

/-- The call `qApp->setFont(font)`: evaluates `qApp` and calls through it. -/
def qApp_setFont (font : QFont) (s : Qt) : Qt :=
  { s.useApplication (.qAppSetFont font) with font := some font }

/-- The declaration `QApplication a(argc, argv);` from here on `qApp` is `a`. -/
def QApplication.new (argc : Int) (argv : List String) (s : Qt) : Qt :=
  { s.log (.newQApplication argc argv) with qApp := some { argc := argc, argv := argv } }

/-- The declaration `MainWindow w;` returns the new window (its index) and the state. -/
def MainWindow.new (constructedTitle : String) (s : Qt) : Nat × Qt :=
  (s.windows.length,
    { s.useApplication .newMainWindow with
      windows := s.windows ++ [{ windowTitle := constructedTitle, visible := false }] })

/-- The call `w.setWindowTitle(title)`. -/
def MainWindow.setWindowTitle (w : Nat) (title : String) (s : Qt) : Qt :=
  { s.useApplication (.setWindowTitle w title) with
    windows := s.windows.modify (fun m => { m with windowTitle := title }) w }

/-- The call `w.show()`: the window becomes visible, with the title it has now. -/
def MainWindow.show (w : Nat) (s : Qt) : Qt :=
  { s.useApplication (.showWindow w) with
    windows := s.windows.modify (fun m => { m with visible := true }) w
    shown := s.shown ++ (s.windows.get? w).toList.map (fun m => (w, m.windowTitle)) }

/-- The call `a.exec()`: runs the event loop, which decides the value returned. -/
def QApplication.exec (eventLoop : Qt → Int) (s : Qt) : Int × Qt :=
  (eventLoop s, s.useApplication (.exec (eventLoop s)))

/-! ## `main` -/

/-- The function `int main(int argc, char *argv[])` of `ui/src/main.cpp`, statement by
statement.  The result is the value returned and the state left behind. -/
def main (build : Build) (env : Environment) (argc : Int) (argv : List String)
    (s : Qt) : Int × Qt :=
  let s := QCoreApplication.setAttribute .AA_UseHighDpiPixmaps s
  let s := QCoreApplication.setAttribute .AA_EnableHighDpiScaling s
  let s := QCoreApplication.setOrganizationDomain "hush.is" s
  let s := QCoreApplication.setOrganizationName "Hush" s
  let s :=
    if build.Q_OS_LINUX then
      let s := QFontDatabase.addApplicationFont ":/fonts/res/Ubuntu-R.ttf" s
      qApp_setFont { family := "Ubuntu", pointSize := 11, weight := .Normal, italic := false } s
    else s
  let s := QApplication.new argc argv s
  let (w, s) := MainWindow.new env.constructedTitle s
  let s := MainWindow.setWindowTitle w ("Extreme Privacy: SilentDragonPaper " ++ build.APP_VERSION) s
  let s := MainWindow.show w s
  QApplication.exec env.eventLoop s

/-- The title `main` gives the window: the fixed text followed by `APP_VERSION`. -/
def windowTitleOf (build : Build) : String :=
  "Extreme Privacy: SilentDragonPaper " ++ build.APP_VERSION

/-- The font `main` asks for on Linux: `QFont("Ubuntu", 11, QFont::Normal, false)`. -/
def ubuntuFont : QFont :=
  { family := "Ubuntu", pointSize := 11, weight := .Normal, italic := false }

/-- The calls `main` makes before it constructs the application object, in order. -/
def callsBeforeApplication (build : Build) : List QtCall :=
  [.setAttribute .AA_UseHighDpiPixmaps, .setAttribute .AA_EnableHighDpiScaling,
    .setOrganizationDomain "hush.is", .setOrganizationName "Hush"] ++
  (if build.Q_OS_LINUX then
    [.addApplicationFont ":/fonts/res/Ubuntu-R.ttf", .qAppSetFont ubuntuFont]
  else [])

/-! ## Properties of `main` -/

/-- The complete trace of a run of `main` from process start. -/
theorem main_trace (build : Build) (env : Environment) (argc : Int) (argv : List String) :
    (main build env argc argv Qt.start).2.trace =
      callsBeforeApplication build ++
        [.newQApplication argc argv, .newMainWindow,
          .setWindowTitle 0 (windowTitleOf build), .showWindow 0,
          .exec (main build env argc argv Qt.start).1] := by
  obtain ⟨linux, version⟩ := build
  cases linux <;> rfl

/-- The window list a run of `main` from process start leaves behind. -/
theorem main_windows (build : Build) (env : Environment) (argc : Int) (argv : List String) :
    (main build env argc argv Qt.start).2.windows =
      [{ windowTitle := windowTitleOf build, visible := true }] := by
  obtain ⟨linux, version⟩ := build
  cases linux <;> rfl

/-- The record of `show()` calls a run of `main` from process start leaves behind. -/
theorem main_shown (build : Build) (env : Environment) (argc : Int) (argv : List String) :
    (main build env argc argv Qt.start).2.shown = [(0, windowTitleOf build)] := by
  obtain ⟨linux, version⟩ := build
  cases linux <;> rfl

/-- The organization settings a run of `main` from process start leaves behind. -/
theorem main_organization (build : Build) (env : Environment) (argc : Int)
    (argv : List String) :
    (main build env argc argv Qt.start).2.organizationDomain = "hush.is" ∧
    (main build env argc argv Qt.start).2.organizationName = "Hush" := by
  obtain ⟨linux, version⟩ := build
  cases linux <;> exact ⟨rfl, rfl⟩

/-- C8: `main` is only the application shell.  For every build (platform switch and
`APP_VERSION`), every environment and every `argc`/`argv`, run from process start:
no call in the trace is key generation, encoding or encryption; the organization
domain is set to "hush.is" and the organization name to "Hush"; exactly one
`MainWindow` is constructed; when it is shown its title is already
"Extreme Privacy: SilentDragonPaper " followed by `APP_VERSION`; the trace ends with
construct application, construct window, set title, show, `exec`; `exec` is called
once, and the value `main` returns is the value that `exec` returned. -/
theorem main_is_application_shell (build : Build) (env : Environment) (argc : Int)
    (argv : List String) :
    (∀ c ∈ (main build env argc argv Qt.start).2.trace, c.isCore = false) ∧
    (main build env argc argv Qt.start).2.organizationDomain = "hush.is" ∧
    (main build env argc argv Qt.start).2.organizationName = "Hush" ∧
    QtCall.setOrganizationDomain "hush.is" ∈ (main build env argc argv Qt.start).2.trace ∧
    QtCall.setOrganizationName "Hush" ∈ (main build env argc argv Qt.start).2.trace ∧
    (main build env argc argv Qt.start).2.trace.count .newMainWindow = 1 ∧
    (main build env argc argv Qt.start).2.windows =
      [{ windowTitle := "Extreme Privacy: SilentDragonPaper " ++ build.APP_VERSION,
         visible := true }] ∧
    (main build env argc argv Qt.start).2.shown =
      [(0, "Extreme Privacy: SilentDragonPaper " ++ build.APP_VERSION)] ∧
    (∃ before, (main build env argc argv Qt.start).2.trace =
      before ++ [.newQApplication argc argv, .newMainWindow,
        .setWindowTitle 0 ("Extreme Privacy: SilentDragonPaper " ++ build.APP_VERSION),
        .showWindow 0, .exec (main build env argc argv Qt.start).1]) ∧
    (∃ calls, (main build env argc argv Qt.start).2.trace =
        calls ++ [.exec (main build env argc argv Qt.start).1] ∧
      ∀ c ∈ calls, ∀ code, c ≠ .exec code) := by
  have htrace := main_trace build env argc argv
  have hpre : ∀ c ∈ callsBeforeApplication build,
      c.isCore = false ∧ c ≠ .newMainWindow ∧ ∀ code, c ≠ .exec code := by
    intro c hc
    obtain ⟨linux, version⟩ := build
    cases linux
    · simp [callsBeforeApplication] at hc
      rcases hc with h | h | h | h <;> subst h <;> simp [QtCall.isCore]
    · simp [callsBeforeApplication] at hc
      rcases hc with h | h | h | h | h | h <;> subst h <;> simp [QtCall.isCore]
  refine ⟨?_, (main_organization build env argc argv).1,
    (main_organization build env argc argv).2, ?_, ?_, ?_, main_windows build env argc argv,
    main_shown build env argc argv, ⟨_, htrace⟩, ?_⟩
  · intro c hc
    rw [htrace, List.mem_append] at hc
    rcases hc with hc | hc
    · exact (hpre c hc).1
    · simp at hc
      rcases hc with h | h | h | h | h <;> subst h <;> rfl
  · rw [htrace]
    simp [callsBeforeApplication]
  · rw [htrace]
    simp [callsBeforeApplication]
  · rw [htrace, List.count_append]
    have h0 : (callsBeforeApplication build).count .newMainWindow = 0 :=
      List.count_eq_zero.mpr (fun hmem => (hpre _ hmem).2.1 rfl)
    rw [h0]
    simp [List.count_cons]
  · refine ⟨callsBeforeApplication build ++ [.newQApplication argc argv, .newMainWindow,
      .setWindowTitle 0 (windowTitleOf build), .showWindow 0], ?_, ?_⟩
    · rw [List.append_assoc]
      exact htrace
    · intro c hc code
      rw [List.mem_append] at hc
      rcases hc with hc | hc
      · exact (hpre c hc).2.2 code
      · simp at hc
        rcases hc with h | h | h | h <;> subst h <;> simp

/-- C9 fails on Linux.  With `Q_OS_LINUX` defined, for every `APP_VERSION`, environment
and `argc`/`argv`, `main` calls `QFontDatabase::addApplicationFont` and `qApp->setFont`
while `qApp` is still null: both calls come before `QApplication a(argc, argv)` in the
trace.  Without `Q_OS_LINUX` no call is made before the application object exists. -/
theorem main_linux_uses_application_before_construction (version : String)
    (env : Environment) (argc : Int) (argv : List String) :
    (main { Q_OS_LINUX := true, APP_VERSION := version } env argc argv
        Qt.start).2.usedWithoutApplication =
      [.addApplicationFont ":/fonts/res/Ubuntu-R.ttf",
        .qAppSetFont ubuntuFont] ∧
    (∃ later, (main { Q_OS_LINUX := true, APP_VERSION := version } env argc argv
        Qt.start).2.trace =
      [.setAttribute .AA_UseHighDpiPixmaps, .setAttribute .AA_EnableHighDpiScaling,
        .setOrganizationDomain "hush.is", .setOrganizationName "Hush",
        .addApplicationFont ":/fonts/res/Ubuntu-R.ttf",
        .qAppSetFont ubuntuFont,
        .newQApplication argc argv] ++ later) ∧
    (main { Q_OS_LINUX := false, APP_VERSION := version } env argc argv
        Qt.start).2.usedWithoutApplication = [] :=
  ⟨rfl, ⟨_, rfl⟩, rfl⟩

end SilentDragonPaper
